import Mathlib

/-!
Verification of the token-vesting engine of `sabijuraa/solana-token-vesting`.

The engine logic lives in two places of the repository:
* `frontend/src/utils/program.ts` — TypeScript/`bn.js` implementations of
  `calculateVestedAmount`, `calculateClaimableAmount`, `formatTokenAmount`
  and `parseTokenAmount`.  `BN` values are arbitrary-precision signed
  integers whose `div` truncates toward zero; we model them as `Int`
  (or `Nat` for the fields that hold `u64` account data) and `BN.div`
  as `Int.tdiv`.
* Rust excerpts of the on-chain program quoted in `tests/token-vesting.ts`
  (`state.rs`: `calculate_vested_amount`; `constants.rs`; the
  `create_vesting` and `revoke` handlers).  Machine integers are modelled
  as `Int`/`Nat` with explicit bound checks (`i64` range, `% 2^64`,
  `% 2^128`) where the Rust code uses checked or wrapping operations.
-/

namespace TokenVesting

/-- Error taxonomy of the program.  `DurationTooShort`, `DurationTooLong`
are shown in the `error.rs` excerpt; `InvalidAmount`, `CalculationOverflow`,
`CliffPercentageTooHigh`, `StartTimeInPast`, `VestingRevoked`,
`VestingCompleted` appear in the quoted handlers, and `CliffNotReached` in
the tests.  `InvalidCliff`, `NothingToClaim` and `AlreadyRevoked` are the
names used by the specification (the code's revoke handler uses
`VestingRevoked` where the spec says `AlreadyRevoked`); they are included
so that the spec's statements can be expressed and compared. -/
inductive VestingError where
  | InvalidAmount
  | DurationTooShort
  | DurationTooLong
  | InvalidCliff
  | CliffPercentageTooHigh
  | StartTimeInPast
  | CalculationOverflow
  | CliffNotReached
  | NothingToClaim
  | AlreadyRevoked
  | VestingCompleted
  | VestingRevoked
deriving DecidableEq, Repr

instance exceptDecidableEq {ε α : Type _} [DecidableEq ε] [DecidableEq α] :
    DecidableEq (Except ε α) := fun x y =>
  match x, y with
  | .ok a, .ok b =>
    if h : a = b then isTrue (by rw [h]) else isFalse (by simp [h])
  | .error e, .error f =>
    if h : e = f then isTrue (by rw [h]) else isFalse (by simp [h])
  | .ok _, .error _ => isFalse (by simp)
  | .error _, .ok _ => isFalse (by simp)

/-- The `VestingSchedule` account (`state.rs` excerpt / the TS interface in
`program.ts`).  Pubkeys (`admin`, `beneficiary`, `mint`) are opaque
identities, modelled as `Nat`; the `u64` fields (`total_amount`,
`claimed_amount`, `revoked_amount`) as `Nat`; the `i64` fields
(`start_time`, `cliff_duration`, `vesting_duration`) as `Int`.  The PDA
bump seeds are account-layer plumbing with no effect on the engine logic
and are omitted. -/
structure VestingSchedule where
  admin : Nat
  beneficiary : Nat
  mint : Nat
  totalAmount : Nat
  claimedAmount : Nat
  startTime : Int
  cliffDuration : Int
  vestingDuration : Int
  isRevoked : Bool
  revokedAmount : Nat
deriving DecidableEq, Repr

/-- `calculateVestedAmount` from `frontend/src/utils/program.ts`
(lines 73–101).  `BN` arithmetic is exact signed-integer arithmetic and
`BN.div` truncates toward zero, hence `Int.tdiv`. -/
def calculateVestedAmount (schedule : VestingSchedule) (currentTime : Int) : Int :=
  if schedule.isRevoked then
    (schedule.totalAmount : Int) - (schedule.revokedAmount : Int)
  else
    let startTime := schedule.startTime
    let cliffDuration := schedule.cliffDuration
    let vestingDuration := schedule.vestingDuration
    let cliffEnd := startTime + cliffDuration
    let vestingEnd := startTime + vestingDuration
    if currentTime < cliffEnd then
      0
    else if vestingEnd ≤ currentTime then
      (schedule.totalAmount : Int)
    else
      let elapsed := currentTime - startTime
      Int.tdiv ((schedule.totalAmount : Int) * elapsed) vestingDuration

/-- `calculateClaimableAmount` from `frontend/src/utils/program.ts`
(lines 106–113): `vested.sub(claimedAmount)`, returned only if positive,
otherwise `0`. -/
def calculateClaimableAmount (schedule : VestingSchedule) (currentTime : Int) : Int :=
  let vested := calculateVestedAmount schedule currentTime
  let claimable := vested - (schedule.claimedAmount : Int)
  if 0 < claimable then claimable else 0

/-- Smallest value of an `i64`. -/
def i64Min : Int := -(2 ^ 63)

/-- Largest value of an `i64`. -/
def i64Max : Int := 2 ^ 63 - 1

/-- Number of values of a `u64`. -/
def u64Size : Nat := 2 ^ 64

/-- Number of values of a `u128`. -/
def u128Size : Nat := 2 ^ 128

/-- Does an exact integer fit in `i64`? -/
def inI64 (x : Int) : Prop := i64Min ≤ x ∧ x ≤ i64Max

instance (x : Int) : Decidable (inI64 x) := by
  unfold inI64; infer_instance

/-- Rust `i64::checked_add`: the exact sum, or `none` on overflow. -/
def checkedAddI64 (a b : Int) : Option Int :=
  if inI64 (a + b) then some (a + b) else none

/-- Rust `u64 as` / `u128 as` style cast of an `i64` value: two's-complement
wrap into `[0, 2^w)`. -/
def wrapToNat (w : Nat) (x : Int) : Nat := (x % ((2 : Int) ^ w)).toNat

/-- Rust `u64::checked_mul`. -/
def checkedMulU64 (a b : Nat) : Option Nat :=
  if a * b < u64Size then some (a * b) else none

/-- Rust `u64::checked_div`: fails only on division by zero. -/
def checkedDivU64 (a b : Nat) : Option Nat :=
  if b = 0 then none else some (a / b)

/-- Rust `u128::checked_mul`. -/
def checkedMulU128 (a b : Nat) : Option Nat :=
  if a * b < u128Size then some (a * b) else none

/-- Rust `u128::checked_div`: fails only on division by zero. -/
def checkedDivU128 (a b : Nat) : Option Nat :=
  if b = 0 then none else some (a / b)

/-- `VestingSchedule::calculate_vested_amount` from the `state.rs` excerpt
quoted in `tests/token-vesting.ts` (lines 711–766): `saturating_sub` on the
revoked path, `checked_add` for `cliff_end` and `vesting_end`, the linear
formula computed in `u128` with `checked_mul`/`checked_div`, and the final
`as u64` truncating cast. -/
def calculate_vested_amount (s : VestingSchedule) (current_time : Int) :
    Except VestingError Nat :=
  if s.isRevoked then
    .ok (s.totalAmount - s.revokedAmount)
  else
    match checkedAddI64 s.startTime s.cliffDuration with
    | none => .error .CalculationOverflow
    | some cliff_end =>
      if current_time < cliff_end then
        .ok 0
      else
        match checkedAddI64 s.startTime s.vestingDuration with
        | none => .error .CalculationOverflow
        | some vesting_end =>
          if vesting_end ≤ current_time then
            .ok s.totalAmount
          else
            let elapsed : Nat := wrapToNat 128 (current_time - s.startTime)
            let duration : Nat := wrapToNat 128 s.vestingDuration
            let total : Nat := s.totalAmount
            match checkedMulU128 total elapsed with
            | none => .error .CalculationOverflow
            | some prod =>
              match checkedDivU128 prod duration with
              | none => .error .CalculationOverflow
              | some vested => .ok (vested % u64Size)

/-- `MIN_VESTING_DURATION` from the `constants.rs` excerpt: one day. -/
def MIN_VESTING_DURATION : Int := 86400

/-- `MAX_VESTING_DURATION` from the `constants.rs` excerpt: ten years. -/
def MAX_VESTING_DURATION : Int := 315360000

/-- `MAX_CLIFF_PERCENTAGE` from the `constants.rs` excerpt. -/
def MAX_CLIFF_PERCENTAGE : Nat := 50

/-- The `create_vesting` handler from the excerpt quoted in
`tests/token-vesting.ts` (lines 860–914): `require!(total_amount > 0)`,
`require!(vesting_duration >= MIN_VESTING_DURATION)`, the cliff-percentage
check computed as `(cliff_duration as u64).checked_mul(100)` then
`checked_div(vesting_duration as u64)` (two's-complement cast of the `i64`
arguments), `require!(start_time > clock.unix_timestamp)`, and on success a
schedule with `claimed_amount = 0`, `is_revoked = false`,
`revoked_amount = 0`.

Modelled from the spec: the excerpt elides the `DurationTooLong` and
`InvalidCliff` checks (`error.rs` lists `DurationTooLong`; the full handler
source is not in the repository snapshot); following §4.1 they sit between
the `DurationTooShort` check and the cliff-percentage check, as
`vesting_duration ≤ MAX_VESTING_DURATION` and
`cliff_duration ≤ vesting_duration`. -/
def create (admin beneficiary mint : Nat) (total_amount : Nat)
    (start_time cliff_duration vesting_duration : Int) (now : Int) :
    Except VestingError VestingSchedule :=
  if ¬ 0 < total_amount then .error .InvalidAmount
  else if vesting_duration < MIN_VESTING_DURATION then .error .DurationTooShort
  else if MAX_VESTING_DURATION < vesting_duration then .error .DurationTooLong
  else if vesting_duration < cliff_duration then .error .InvalidCliff
  else
    match checkedMulU64 (wrapToNat 64 cliff_duration) 100 with
    | none => .error .CalculationOverflow
    | some p =>
      match checkedDivU64 p (wrapToNat 64 vesting_duration) with
      | none => .error .CalculationOverflow
      | some cliff_percentage =>
        if MAX_CLIFF_PERCENTAGE < cliff_percentage then
          .error .CliffPercentageTooHigh
        else if ¬ now < start_time then .error .StartTimeInPast
        else
          .ok { admin, beneficiary, mint,
                totalAmount := total_amount,
                claimedAmount := 0,
                startTime := start_time,
                cliffDuration := cliff_duration,
                vestingDuration := vesting_duration,
                isRevoked := false,
                revokedAmount := 0 }

/-- Modelled from the spec: `VestingSchedule::is_fully_vested` is called by
the quoted revoke handler but its source is not in the repository snapshot.
Per §4.4 the revoke handler "Fails `VestingCompleted` if
`vestedAmount(schedule, now) == schedule.totalAmount`", so a schedule is
fully vested exactly when the vested-amount computation succeeds with
`total_amount`. -/
def is_fully_vested (s : VestingSchedule) (current_time : Int) : Bool :=
  match calculate_vested_amount s current_time with
  | .ok v => v = s.totalAmount
  | .error _ => false

/-- Modelled from the spec: `VestingSchedule::calculate_unvested_amount` is
called by the quoted revoke handler but its source is not in the repository
snapshot.  Per §4.4, `unvested = totalAmount − vestedAmount(schedule, now)`
with checked subtraction. -/
def calculate_unvested_amount (s : VestingSchedule) (current_time : Int) :
    Except VestingError Nat :=
  match calculate_vested_amount s current_time with
  | .error e => .error e
  | .ok vested =>
    if vested ≤ s.totalAmount then .ok (s.totalAmount - vested)
    else .error .CalculationOverflow

/-- The revoke handler from the excerpt quoted in `tests/token-vesting.ts`
(lines 1004–1030): `require!(!is_revoked, VestingError::VestingRevoked)`,
`require!(!is_fully_vested(now), VestingError::VestingCompleted)`, then
`unvested = calculate_unvested_amount(now)?`, and the state update
`is_revoked = true`, `revoked_amount = unvested` with every other field
untouched.  Returns the unvested amount (transferred back to the admin by
the token program) together with the updated schedule. -/
def applyRevoke (s : VestingSchedule) (now : Int) :
    Except VestingError (Nat × VestingSchedule) :=
  if s.isRevoked then .error .VestingRevoked
  else if is_fully_vested s now then .error .VestingCompleted
  else
    match calculate_unvested_amount s now with
    | .error e => .error e
    | .ok unvested =>
      .ok (unvested, { s with isRevoked := true, revokedAmount := unvested })

/-- Decimal rendering of a non-negative `BN` (`BN.toString()` in
`program.ts`), by repeated division by ten; `fuel` bounds the recursion and
is always supplied large enough (`n + 1` suffices, see `natDigitsAux_eq`). -/
def natDigitsAux : Nat → Nat → List Char
  | 0, _ => []
  | fuel + 1, n =>
    if n < 10 then [Nat.digitChar n]
    else natDigitsAux fuel (n / 10) ++ [Nat.digitChar (n % 10)]

/-- Decimal digit string of a natural number: the model of `BN.toString()`
for the non-negative values the round-trip claim is about. -/
def natDigits (n : Nat) : List Char := natDigitsAux (n + 1) n

/-- JavaScript `String.padStart(width, '0')`. -/
def padStartZeros (l : List Char) (width : Nat) : List Char :=
  List.replicate (width - l.length) '0' ++ l

/-- JavaScript `String.padEnd(width, '0')`. -/
def padEndZeros (l : List Char) (width : Nat) : List Char :=
  l ++ List.replicate (width - l.length) '0'

/-- JavaScript `.replace(/0+$/, '')`: strip every trailing `'0'`. -/
def dropTrailingZeros (l : List Char) : List Char :=
  (List.dropWhile (fun c => c = '0') l.reverse).reverse

/-- JavaScript `String.split('.')`: cut the character list at every dot. -/
def splitOnDot : List Char → List (List Char)
  | [] => [[]]
  | c :: rest =>
    if c = '.' then [] :: splitOnDot rest
    else
      match splitOnDot rest with
      | [] => [[c]]
      | h :: t => (c :: h) :: t

/-- Decimal value of a digit string: the model of `new BN(string)` for the
digit-only strings produced here (`bn.js` parses base ten; the empty string
parses to `0`). -/
def parseDigits (l : List Char) : Nat :=
  l.foldl (fun acc c => 10 * acc + (c.toNat - 48)) 0

/-- `formatTokenAmount` from `frontend/src/utils/program.ts`
(lines 312–324): split `amount` into integer and fractional parts by
`10 ^ decimals`, left-pad the fractional digits to `decimals`, strip its
trailing zeros, and join with a dot when the trimmed part is non-empty.
The source takes a `BN`; the round-trip claim is about non-negative
amounts, so the model takes `Nat` (on which `BN.div`/`BN.mod` agree with
`Nat` division and remainder). -/
def formatTokenAmount (amount : Nat) (decimals : Nat) : List Char :=
  let divisor := 10 ^ decimals
  let integerPart := amount / divisor
  let fractionalPart := amount % divisor
  let fractionalStr := padStartZeros (natDigits fractionalPart) decimals
  let trimmedFractional := dropTrailingZeros fractionalStr
  if trimmedFractional ≠ [] then
    natDigits integerPart ++ '.' :: trimmedFractional
  else
    natDigits integerPart

/-- `parseTokenAmount` from `frontend/src/utils/program.ts`
(lines 329–334): split on `'.'` (JS destructuring takes the first piece as
the integer part and defaults a missing second piece to the empty string),
right-pad the fractional part with zeros, truncate it to `decimals`,
concatenate, and parse the resulting digit string. -/
def parseTokenAmount (amount : List Char) (decimals : Nat) : Nat :=
  let parts := splitOnDot amount
  let integerPart := parts.headD []
  let fractionalPart := (parts.drop 1).headD []
  let paddedFractional := (padEndZeros fractionalPart decimals).take decimals
  let fullAmount := integerPart ++ paddedFractional
  parseDigits fullAmount

/-- Scenario A of the specification (§8): `totalAmount = 1000`,
`startTime = T`, `cliffDuration = 100`, `vestingDuration = 1000`, fresh and
unrevoked. -/
def scenarioA (T : Int) : VestingSchedule :=
  { admin := 0, beneficiary := 1, mint := 2, totalAmount := 1000,
    claimedAmount := 0, startTime := T, cliffDuration := 100,
    vestingDuration := 1000, isRevoked := false, revokedAmount := 0 }

/-- C1: for a non-revoked schedule, `calculateVestedAmount` is the ordered
piecewise function — `0` before `startTime + cliffDuration`, `totalAmount`
from `startTime + vestingDuration` on, and otherwise
`totalAmount * (now - startTime) / vestingDuration` with truncating integer
division (which is the floor, since with a non-negative cliff all operands
in that branch are non-negative); on Scenario A it takes the values 0, 100,
500, 1000 at `T+50`, `T+100`, `T+500`, `T+1000`. -/
theorem c1_vestedAmount_piecewise (s : VestingSchedule) (now T : Int)
    (hrev : s.isRevoked = false) :
    (now < s.startTime + s.cliffDuration → calculateVestedAmount s now = 0) ∧
    (¬ now < s.startTime + s.cliffDuration →
      s.startTime + s.vestingDuration ≤ now →
      calculateVestedAmount s now = (s.totalAmount : Int)) ∧
    (¬ now < s.startTime + s.cliffDuration →
      now < s.startTime + s.vestingDuration →
      calculateVestedAmount s now
        = Int.tdiv ((s.totalAmount : Int) * (now - s.startTime))
            s.vestingDuration) ∧
    (0 ≤ s.cliffDuration → ¬ now < s.startTime + s.cliffDuration →
      now < s.startTime + s.vestingDuration →
      calculateVestedAmount s now
        = Int.fdiv ((s.totalAmount : Int) * (now - s.startTime))
            s.vestingDuration) ∧
    calculateVestedAmount (scenarioA T) (T + 50) = 0 ∧
    calculateVestedAmount (scenarioA T) (T + 100) = 100 ∧
    calculateVestedAmount (scenarioA T) (T + 500) = 500 ∧
    calculateVestedAmount (scenarioA T) (T + 1000) = 1000 := by
  have hA : ∀ u v : Int, calculateVestedAmount (scenarioA u) v
      = if v < u + 100 then 0
        else if u + 1000 ≤ v then 1000
        else Int.tdiv (1000 * (v - u)) 1000 := by
    intro u v
    simp [calculateVestedAmount, scenarioA]
  refine ⟨?_, ?_, ?_, ?_, ?_, ?_, ?_, ?_⟩
  · intro h
    simp [calculateVestedAmount, hrev, h]
  · intro h h'
    simp [calculateVestedAmount, hrev, h, h']
  · intro h h'
    have h'' : ¬ s.startTime + s.vestingDuration ≤ now := by omega
    simp [calculateVestedAmount, hrev, h, h'']
  · intro hc h h'
    have h'' : ¬ s.startTime + s.vestingDuration ≤ now := by omega
    simp only [calculateVestedAmount, hrev, Bool.false_eq_true, if_false,
      if_neg h, if_neg h'']
    have hnum : (0 : Int) ≤ (s.totalAmount : Int) * (now - s.startTime) :=
      mul_nonneg (Int.natCast_nonneg _) (by omega)
    have hden : (0 : Int) ≤ s.vestingDuration := by omega
    rw [Int.tdiv_eq_ediv hnum hden, Int.fdiv_eq_ediv _ hden]
  · rw [hA]
    have h1 : T + 50 < T + 100 := by omega
    simp [h1]
  · rw [hA]
    have h1 : ¬ T + 100 < T + 100 := by omega
    have h2 : ¬ T + 1000 ≤ T + 100 := by omega
    have h3 : T + 100 - T = 100 := by omega
    simp [h1, h2, h3]
    decide
  · rw [hA]
    have h1 : ¬ T + 500 < T + 100 := by omega
    have h2 : ¬ T + 1000 ≤ T + 500 := by omega
    have h3 : T + 500 - T = 500 := by omega
    simp [h1, h2, h3]
    decide
  · rw [hA]
    have h1 : ¬ T + 1000 < T + 100 := by omega
    have h2 : T + 1000 ≤ T + 1000 := by omega
    simp [h1, h2]

/-- C1 witness: the theorem applied to Scenario A with `T = 0` at
`now = 500`. -/
theorem c1_vestedAmount_piecewise_witness :
    calculateVestedAmount (scenarioA 0) 500 = 500 :=
  (c1_vestedAmount_piecewise (scenarioA 0) 500 0 (by decide)).2.2.2.2.2.2.1

/-- C2: `calculateClaimableAmount` equals
`max 0 (vestedAmount - claimedAmount)` and in particular is never
negative, for every schedule and time. -/
theorem c2_claimable_eq_max (s : VestingSchedule) (now : Int) :
    calculateClaimableAmount s now
      = max 0 (calculateVestedAmount s now - (s.claimedAmount : Int)) ∧
    0 ≤ calculateClaimableAmount s now := by
  constructor <;>
  · simp only [calculateClaimableAmount, max_def]
    split_ifs <;> omega

/-- C3 counterexample: `create` with `cliffDuration = 4320001`,
`vestingDuration = 8640000` (and otherwise valid inputs) succeeds although
`cliffDuration * 100 > vestingDuration * 50`: the code's truncating-division
check computes `432000100 / 8640000 = 50 ≤ 50` and accepts, so the claimed
invariant `cliffDuration * 100 ≤ vestingDuration * MAX_CLIFF_PERCENTAGE`
does not hold of every schedule `create` returns. -/
theorem c3_counterexample :
    create 0 1 2 1000 100 4320001 8640000 0
      = Except.ok
          { admin := 0, beneficiary := 1, mint := 2, totalAmount := 1000,
            claimedAmount := 0, startTime := 100, cliffDuration := 4320001,
            vestingDuration := 8640000, isRevoked := false,
            revokedAmount := 0 } ∧
    ¬ ((4320001 : Int) * 100 ≤ 8640000 * 50) :=
  ⟨rfl, by decide⟩

/-- C3 (amended): every schedule `create` returns satisfies the code's
truncating check `(cliffDuration as u64 * 100) / (vestingDuration as u64)
≤ MAX_CLIFF_PERCENTAGE`, and conversely `create` rejects with
`CliffPercentageTooHigh` every input that passes the four earlier checks,
whose `cliffDuration * 100` does not overflow `u64`, and whose truncated
percentage exceeds `MAX_CLIFF_PERCENTAGE`. -/
theorem c3_cliff_check (a b m total : Nat) (start cliff dur now : Int) :
    (∀ s, create a b m total start cliff dur now = Except.ok s →
      (wrapToNat 64 cliff * 100) / wrapToNat 64 dur ≤ MAX_CLIFF_PERCENTAGE) ∧
    (0 < total → MIN_VESTING_DURATION ≤ dur → dur ≤ MAX_VESTING_DURATION →
      cliff ≤ dur → wrapToNat 64 cliff * 100 < u64Size →
      MAX_CLIFF_PERCENTAGE < (wrapToNat 64 cliff * 100) / wrapToNat 64 dur →
      create a b m total start cliff dur now
        = Except.error VestingError.CliffPercentageTooHigh) := by
  constructor
  · intro s h
    unfold create checkedMulU64 checkedDivU64 at h
    split_ifs at h <;> simp_all
    all_goals (split_ifs at h <;> simp_all)
  · intro h1 h2 h3 h4 h5 h6
    have hd : ¬ wrapToNat 64 dur = 0 := by
      unfold wrapToNat
      unfold MIN_VESTING_DURATION at h2
      unfold MAX_VESTING_DURATION at h3
      norm_num
      omega
    have hm : checkedMulU64 (wrapToNat 64 cliff) 100
        = some (wrapToNat 64 cliff * 100) := by
      unfold checkedMulU64
      rw [if_pos h5]
    have hdv : checkedDivU64 (wrapToNat 64 cliff * 100) (wrapToNat 64 dur)
        = some ((wrapToNat 64 cliff * 100) / wrapToNat 64 dur) := by
      unfold checkedDivU64
      rw [if_neg hd]
    unfold create
    rw [if_neg (by omega), if_neg (by omega), if_neg (by omega),
      if_neg (by omega)]
    simp only [hm, hdv]
    rw [if_pos h6]

/-- C3 witness: Scenario C of the spec — a cliff of 60% of the vesting
duration (`5184000` of `8640000`) is rejected with
`CliffPercentageTooHigh`, via the amended theorem. -/
theorem c3_cliff_check_witness :
    create 0 1 2 1000 100 5184000 8640000 0
      = Except.error VestingError.CliffPercentageTooHigh :=
  (c3_cliff_check 0 1 2 1000 100 5184000 8640000 0).2 (by decide) (by decide)
    (by decide) (by decide) (by decide) (by decide)

/-- Scenario A with `T = 0`, revoked at time 500: `revokedAmount = 500`. -/
def revokedScenarioA : VestingSchedule :=
  { scenarioA 0 with isRevoked := true, revokedAmount := 500 }

/-- C4: for a revoked schedule, `calculateVestedAmount` equals
`totalAmount - revokedAmount` whatever the time; and after a successful
`applyRevoke` at time `r` (on a schedule whose claimed amount had not
outrun its vested amount, per the data-model invariant),
`calculateClaimableAmount` at any `t ≥ r` equals
`(totalAmount - revokedAmount) - claimedAmount`, independent of `t`. -/
theorem c4_revoked_constant (s s₀ s' : VestingSchedule) (t r : Int)
    (amt : Nat) (hrev : s.isRevoked = true) :
    (calculateVestedAmount s t
      = (s.totalAmount : Int) - (s.revokedAmount : Int)) ∧
    (applyRevoke s₀ r = Except.ok (amt, s') →
      s₀.claimedAmount + amt ≤ s₀.totalAmount →
      r ≤ t →
      calculateClaimableAmount s' t
        = ((s'.totalAmount : Int) - (s'.revokedAmount : Int))
            - (s'.claimedAmount : Int)) := by
  constructor
  · simp [calculateVestedAmount, hrev]
  · intro h hle hrt
    unfold applyRevoke at h
    split_ifs at h with h1 h2
    cases hu : calculate_unvested_amount s₀ r with
    | error e => rw [hu] at h; simp at h
    | ok u =>
      rw [hu] at h
      simp only [Except.ok.injEq, Prod.mk.injEq] at h
      obtain ⟨hamt, hs'⟩ := h
      subst hamt
      subst hs'
      simp only [calculateClaimableAmount, calculateVestedAmount]
      split_ifs <;> omega

/-- C4 witness: revoking Scenario A (with `T = 0`) at `r = 500` and reading
the claimable amount at the later time `t = 2000`: the schedule's vested
amount froze at 500, all still unclaimed. -/
theorem c4_revoked_constant_witness :
    calculateVestedAmount revokedScenarioA 2000 = 500 ∧
    calculateClaimableAmount revokedScenarioA 2000 = 500 := by
  constructor
  · exact (c4_revoked_constant revokedScenarioA (scenarioA 0)
      revokedScenarioA 2000 500 500 (by decide)).1
  · exact (c4_revoked_constant revokedScenarioA (scenarioA 0)
      revokedScenarioA 2000 500 500 (by decide)).2 (by decide) (by decide)
      (by decide)

/-- C5 counterexample: on an already-revoked schedule `applyRevoke` fails
with the code's error `VestingRevoked`
(`require!(!vesting_schedule.is_revoked, VestingError::VestingRevoked)`),
not with the error the claim names, `AlreadyRevoked`. -/
theorem c5_counterexample :
    revokedScenarioA.isRevoked = true ∧
    applyRevoke revokedScenarioA 0
      ≠ Except.error VestingError.AlreadyRevoked ∧
    applyRevoke revokedScenarioA 0
      = Except.error VestingError.VestingRevoked := by
  refine ⟨rfl, by decide, by decide⟩

/-- C5 (amended): at any time at which the vested-amount computation
succeeds with a value `v ≤ totalAmount` (true of every schedule satisfying
the creation invariants), `applyRevoke` fails with `VestingRevoked` (the
code's name for the spec's `AlreadyRevoked`) whenever the schedule is
already revoked, fails with `VestingCompleted` whenever `v = totalAmount`,
and otherwise sets `isRevoked := true` and
`revokedAmount := totalAmount - v`, returning the unvested amount and
leaving `claimedAmount` and every other field unchanged. -/
theorem c5_applyRevoke_cases (s : VestingSchedule) (now : Int) (v : Nat)
    (hv : calculate_vested_amount s now = Except.ok v)
    (hvle : v ≤ s.totalAmount) :
    (s.isRevoked = true →
      applyRevoke s now = Except.error VestingError.VestingRevoked) ∧
    (s.isRevoked = false → v = s.totalAmount →
      applyRevoke s now = Except.error VestingError.VestingCompleted) ∧
    (s.isRevoked = false → v ≠ s.totalAmount →
      applyRevoke s now
        = Except.ok (s.totalAmount - v,
            { s with isRevoked := true,
                     revokedAmount := s.totalAmount - v })) := by
  refine ⟨?_, ?_, ?_⟩
  · intro h
    unfold applyRevoke
    rw [if_pos h]
  · intro h hveq
    have hfull : is_fully_vested s now = true := by
      unfold is_fully_vested
      rw [hv]
      simp [hveq]
    unfold applyRevoke
    rw [if_neg (by simp [h]), if_pos hfull]
  · intro h hvne
    have hfull : ¬ is_fully_vested s now = true := by
      unfold is_fully_vested
      rw [hv]
      simp [hvne]
    have hu : calculate_unvested_amount s now
        = Except.ok (s.totalAmount - v) := by
      unfold calculate_unvested_amount
      rw [hv]
      simp [hvle]
    unfold applyRevoke
    rw [if_neg (by simp [h]), if_neg hfull]
    simp only [hu]

/-- C5 witness: revoking Scenario A (`T = 0`) at `now = 500`: the vested
amount is 500, so revocation succeeds, returns the unvested 500 and stamps
`revokedAmount = 500`. -/
theorem c5_applyRevoke_cases_witness :
    applyRevoke (scenarioA 0) 500 = Except.ok (500, revokedScenarioA) := by
  have h := (c5_applyRevoke_cases (scenarioA 0) 500 500 (by decide)
    (by decide)).2.2 (by decide) (by decide)
  simpa using h

/-- For a duration between the configured minimum and maximum, the `u64`
cast is the duration itself and in particular non-zero, so the percentage
division in `create` cannot fail. -/
theorem wrapDur_ne_zero (dur : Int) (h2 : MIN_VESTING_DURATION ≤ dur)
    (h3 : dur ≤ MAX_VESTING_DURATION) : ¬ wrapToNat 64 dur = 0 := by
  unfold wrapToNat
  unfold MIN_VESTING_DURATION at h2
  unfold MAX_VESTING_DURATION at h3
  norm_num
  omega

/-- C6: `create` runs its checks in the source's fixed order — amount,
minimum duration, maximum duration, cliff-versus-duration, cliff
percentage (with `CalculationOverflow` when `cliffDuration * 100`
overflows `u64`), start time — the first failing check naming the error,
no schedule being produced on failure, and on success the initialized
schedule is returned; Scenario B (`vestingDuration = 3600`, otherwise
valid) fails with `DurationTooShort`. -/
theorem c6_create_validation_order (a b m total : Nat)
    (start cliff dur now : Int) :
    (total = 0 →
      create a b m total start cliff dur now
        = Except.error VestingError.InvalidAmount) ∧
    (0 < total → dur < MIN_VESTING_DURATION →
      create a b m total start cliff dur now
        = Except.error VestingError.DurationTooShort) ∧
    (0 < total → MIN_VESTING_DURATION ≤ dur → MAX_VESTING_DURATION < dur →
      create a b m total start cliff dur now
        = Except.error VestingError.DurationTooLong) ∧
    (0 < total → MIN_VESTING_DURATION ≤ dur → dur ≤ MAX_VESTING_DURATION →
      dur < cliff →
      create a b m total start cliff dur now
        = Except.error VestingError.InvalidCliff) ∧
    (0 < total → MIN_VESTING_DURATION ≤ dur → dur ≤ MAX_VESTING_DURATION →
      cliff ≤ dur → u64Size ≤ wrapToNat 64 cliff * 100 →
      create a b m total start cliff dur now
        = Except.error VestingError.CalculationOverflow) ∧
    (0 < total → MIN_VESTING_DURATION ≤ dur → dur ≤ MAX_VESTING_DURATION →
      cliff ≤ dur → wrapToNat 64 cliff * 100 < u64Size →
      MAX_CLIFF_PERCENTAGE < (wrapToNat 64 cliff * 100) / wrapToNat 64 dur →
      create a b m total start cliff dur now
        = Except.error VestingError.CliffPercentageTooHigh) ∧
    (0 < total → MIN_VESTING_DURATION ≤ dur → dur ≤ MAX_VESTING_DURATION →
      cliff ≤ dur → wrapToNat 64 cliff * 100 < u64Size →
      (wrapToNat 64 cliff * 100) / wrapToNat 64 dur ≤ MAX_CLIFF_PERCENTAGE →
      start ≤ now →
      create a b m total start cliff dur now
        = Except.error VestingError.StartTimeInPast) ∧
    (0 < total → MIN_VESTING_DURATION ≤ dur → dur ≤ MAX_VESTING_DURATION →
      cliff ≤ dur → wrapToNat 64 cliff * 100 < u64Size →
      (wrapToNat 64 cliff * 100) / wrapToNat 64 dur ≤ MAX_CLIFF_PERCENTAGE →
      now < start →
      create a b m total start cliff dur now
        = Except.ok
            { admin := a, beneficiary := b, mint := m, totalAmount := total,
              claimedAmount := 0, startTime := start, cliffDuration := cliff,
              vestingDuration := dur, isRevoked := false,
              revokedAmount := 0 }) ∧
    create 0 1 2 1000 100 0 3600 0
      = Except.error VestingError.DurationTooShort := by
  refine ⟨?_, ?_, ?_, ?_, ?_, ?_, ?_, ?_, by decide⟩
  · intro h0
    unfold create
    rw [if_pos (by omega)]
  · intro h1 h2
    unfold create
    rw [if_neg (by omega), if_pos h2]
  · intro h1 h2 h3
    unfold create
    rw [if_neg (by omega), if_neg (by omega), if_pos h3]
  · intro h1 h2 h3 h4
    unfold create
    rw [if_neg (by omega), if_neg (by omega), if_neg (by omega), if_pos h4]
  · intro h1 h2 h3 h4 h5
    have hm : checkedMulU64 (wrapToNat 64 cliff) 100 = none := by
      unfold checkedMulU64
      rw [if_neg (by omega)]
    unfold create
    rw [if_neg (by omega), if_neg (by omega), if_neg (by omega),
      if_neg (by omega)]
    simp only [hm]
  · intro h1 h2 h3 h4 h5 h6
    have hm : checkedMulU64 (wrapToNat 64 cliff) 100
        = some (wrapToNat 64 cliff * 100) := by
      unfold checkedMulU64
      rw [if_pos h5]
    have hdv : checkedDivU64 (wrapToNat 64 cliff * 100) (wrapToNat 64 dur)
        = some ((wrapToNat 64 cliff * 100) / wrapToNat 64 dur) := by
      unfold checkedDivU64
      rw [if_neg (wrapDur_ne_zero dur h2 h3)]
    unfold create
    rw [if_neg (by omega), if_neg (by omega), if_neg (by omega),
      if_neg (by omega)]
    simp only [hm, hdv]
    rw [if_pos h6]
  · intro h1 h2 h3 h4 h5 h6 h7
    have hm : checkedMulU64 (wrapToNat 64 cliff) 100
        = some (wrapToNat 64 cliff * 100) := by
      unfold checkedMulU64
      rw [if_pos h5]
    have hdv : checkedDivU64 (wrapToNat 64 cliff * 100) (wrapToNat 64 dur)
        = some ((wrapToNat 64 cliff * 100) / wrapToNat 64 dur) := by
      unfold checkedDivU64
      rw [if_neg (wrapDur_ne_zero dur h2 h3)]
    unfold create
    rw [if_neg (by omega), if_neg (by omega), if_neg (by omega),
      if_neg (by omega)]
    simp only [hm, hdv]
    rw [if_neg (by omega), if_pos (by omega)]
  · intro h1 h2 h3 h4 h5 h6 h7
    have hm : checkedMulU64 (wrapToNat 64 cliff) 100
        = some (wrapToNat 64 cliff * 100) := by
      unfold checkedMulU64
      rw [if_pos h5]
    have hdv : checkedDivU64 (wrapToNat 64 cliff * 100) (wrapToNat 64 dur)
        = some ((wrapToNat 64 cliff * 100) / wrapToNat 64 dur) := by
      unfold checkedDivU64
      rw [if_neg (wrapDur_ne_zero dur h2 h3)]
    unfold create
    rw [if_neg (by omega), if_neg (by omega), if_neg (by omega),
      if_neg (by omega)]
    simp only [hm, hdv]
    rw [if_neg (by omega), if_neg (by omega)]

/-- C6 witness: a fully valid input (Scenario A's parameters with a
day-long duration scaled up) passes all six checks and yields the
initialized schedule. -/
theorem c6_create_validation_order_witness :
    create 7 8 9 1000 100 40000 86400 0
      = Except.ok
          { admin := 7, beneficiary := 8, mint := 9, totalAmount := 1000,
            claimedAmount := 0, startTime := 100, cliffDuration := 40000,
            vestingDuration := 86400, isRevoked := false,
            revokedAmount := 0 } :=
  (c6_create_validation_order 7 8 9 1000 100 40000 86400 0).2.2.2.2.2.2.2.1
    (by decide) (by decide) (by decide) (by decide) (by decide) (by decide)
    (by decide)

/-- C7: for a non-revoked schedule, `calculate_vested_amount` computes
`cliff_end = start_time + cliff_duration` and
`vesting_end = start_time + vesting_duration` with `i64`
overflow-checked addition: an out-of-range sum produces
`Except.error CalculationOverflow`, never a wrapped or saturated value
(the `vesting_end` sum is evaluated once `now` has passed `cliff_end`). -/
theorem c7_checked_addition (s : VestingSchedule) (now : Int)
    (hrev : s.isRevoked = false) :
    (¬ inI64 (s.startTime + s.cliffDuration) →
      calculate_vested_amount s now
        = Except.error VestingError.CalculationOverflow) ∧
    (inI64 (s.startTime + s.cliffDuration) →
      s.startTime + s.cliffDuration ≤ now →
      ¬ inI64 (s.startTime + s.vestingDuration) →
      calculate_vested_amount s now
        = Except.error VestingError.CalculationOverflow) := by
  constructor
  · intro h
    have hc : checkedAddI64 s.startTime s.cliffDuration = none := by
      unfold checkedAddI64
      rw [if_neg h]
    unfold calculate_vested_amount
    rw [if_neg (by simp [hrev])]
    simp only [hc]
  · intro h h' h''
    have hc : checkedAddI64 s.startTime s.cliffDuration
        = some (s.startTime + s.cliffDuration) := by
      unfold checkedAddI64
      rw [if_pos h]
    have hv : checkedAddI64 s.startTime s.vestingDuration = none := by
      unfold checkedAddI64
      rw [if_neg h'']
    unfold calculate_vested_amount
    rw [if_neg (by simp [hrev])]
    simp only [hc, hv]
    rw [if_neg (by omega)]

/-- C7 witness: a schedule whose `startTime + cliffDuration` exceeds
`i64::MAX` makes `calculate_vested_amount` fail with
`CalculationOverflow`. -/
theorem c7_checked_addition_witness :
    calculate_vested_amount
      { admin := 0, beneficiary := 1, mint := 2, totalAmount := 1000,
        claimedAmount := 0, startTime := 9223372036854775807,
        cliffDuration := 1, vestingDuration := 86400, isRevoked := false,
        revokedAmount := 0 } 0
      = Except.error VestingError.CalculationOverflow :=
  (c7_checked_addition
    { admin := 0, beneficiary := 1, mint := 2, totalAmount := 1000,
      claimedAmount := 0, startTime := 9223372036854775807,
      cliffDuration := 1, vestingDuration := 86400, isRevoked := false,
      revokedAmount := 0 } 0 (by decide)).1 (by decide)

/-- `calculateVestedAmount`, unfolded for a non-revoked schedule. -/
theorem calculateVestedAmount_eq (s : VestingSchedule) (t : Int)
    (hrev : s.isRevoked = false) :
    calculateVestedAmount s t
      = if t < s.startTime + s.cliffDuration then 0
        else if s.startTime + s.vestingDuration ≤ t then (s.totalAmount : Int)
        else Int.tdiv ((s.totalAmount : Int) * (t - s.startTime))
            s.vestingDuration := by
  simp [calculateVestedAmount, hrev]

/-- Truncating division of a non-positive dividend by a non-negative
divisor is non-positive. -/
theorem tdiv_nonpos_of_nonpos (a b : Int) (ha : a ≤ 0) (hb : 0 ≤ b) :
    a.tdiv b ≤ 0 := by
  have h := Int.neg_tdiv (-a) b
  rw [neg_neg] at h
  rw [h, Left.neg_nonpos_iff]
  exact Int.tdiv_nonneg (by omega) hb

/-- The linear-interpolation branch of the vested-amount formula never
exceeds the total while the elapsed time is below the duration. -/
theorem interp_le_total (total : Nat) (e d : Int) (hd : 0 < d)
    (hed : e < d) : Int.tdiv ((total : Int) * e) d ≤ (total : Int) := by
  rcases le_or_lt 0 e with he | he
  · rw [Int.tdiv_eq_ediv (mul_nonneg (Int.natCast_nonneg total) he)
      (by omega)]
    calc (total : Int) * e / d ≤ (total : Int) * d / d :=
          Int.ediv_le_ediv hd
            (by nlinarith [Int.natCast_nonneg total])
      _ = (total : Int) := Int.mul_ediv_cancel _ (by omega)
  · refine le_trans (tdiv_nonpos_of_nonpos _ _ ?_ (by omega))
      (Int.natCast_nonneg total)
    nlinarith [Int.natCast_nonneg total]

/-- The linear-interpolation branch is monotone in the elapsed time, for a
non-negative starting point and positive duration. -/
theorem interp_mono (total : Nat) (e1 e2 d : Int) (hd : 0 < d)
    (h0 : 0 ≤ e1) (h12 : e1 ≤ e2) :
    Int.tdiv ((total : Int) * e1) d ≤ Int.tdiv ((total : Int) * e2) d := by
  rw [Int.tdiv_eq_ediv (mul_nonneg (Int.natCast_nonneg total) h0) (by omega),
    Int.tdiv_eq_ediv (mul_nonneg (Int.natCast_nonneg total) (by omega))
      (by omega)]
  exact Int.ediv_le_ediv hd (by nlinarith [Int.natCast_nonneg total])

/-- C8: for every schedule whose fields satisfy the creation-time
invariants (`revokedAmount ≤ totalAmount`, `vestingDuration > 0`), the
vested amount never exceeds `totalAmount`, at any time. -/
theorem c8_vested_le_total (s : VestingSchedule) (t : Int)
    (_hrevle : s.revokedAmount ≤ s.totalAmount)
    (hdur : 0 < s.vestingDuration) :
    calculateVestedAmount s t ≤ (s.totalAmount : Int) := by
  by_cases hrev : s.isRevoked = true
  · simp only [calculateVestedAmount, hrev, if_pos]
    omega
  · rw [calculateVestedAmount_eq s t (by simpa using hrev)]
    split_ifs with hc hv
    · exact Int.natCast_nonneg _
    · exact le_refl _
    · exact interp_le_total s.totalAmount _ _ hdur (by omega)

/-- C8 witness: Scenario A far past its vesting end stays at the total. -/
theorem c8_vested_le_total_witness :
    calculateVestedAmount (scenarioA 0) 123456 ≤ 1000 :=
  c8_vested_le_total (scenarioA 0) 123456 (by decide) (by decide)

/-- C9: for a valid non-revoked schedule (non-negative cliff not exceeding
a positive duration), `calculateVestedAmount` is monotonically
non-decreasing in time; for a revoked schedule it is constant in time. -/
theorem c9_vested_monotone (s : VestingSchedule) (t1 t2 : Int)
    (h12 : t1 ≤ t2) :
    (s.isRevoked = false → 0 ≤ s.cliffDuration →
      s.cliffDuration ≤ s.vestingDuration → 0 < s.vestingDuration →
      calculateVestedAmount s t1 ≤ calculateVestedAmount s t2) ∧
    (s.isRevoked = true →
      calculateVestedAmount s t1 = calculateVestedAmount s t2) := by
  constructor
  · intro hrev hc hcd hd
    rw [calculateVestedAmount_eq s t1 hrev, calculateVestedAmount_eq s t2 hrev]
    split_ifs with h1 h2 h3 h4 h5 h6 h7
    · exact le_refl _
    · exact Int.natCast_nonneg _
    · exact Int.tdiv_nonneg
        (mul_nonneg (Int.natCast_nonneg _) (by omega)) (by omega)
    · exfalso; omega
    · exact le_refl _
    · exfalso; omega
    · exfalso; omega
    · exact interp_le_total s.totalAmount _ _ hd (by omega)
    · exact interp_mono s.totalAmount _ _ _ hd (by omega) (by omega)
  · intro hrev
    simp [calculateVestedAmount, hrev]

/-- C9 witness: on Scenario A, the vested amount at `t = 300` is at most
the one at `t = 700`. -/
theorem c9_vested_monotone_witness :
    calculateVestedAmount (scenarioA 0) 300
      ≤ calculateVestedAmount (scenarioA 0) 700 :=
  (c9_vested_monotone (scenarioA 0) 300 700 (by decide)).1 (by decide)
    (by decide) (by decide) (by decide)

/-- The ten digit characters are not the dot. -/
theorem digitChar_ne_dot : ∀ k, k < 10 → Nat.digitChar k ≠ '.' := by decide

/-- Code value of a digit character, back to the digit. -/
theorem digitChar_val : ∀ k, k < 10 → (Nat.digitChar k).toNat - 48 = k := by
  decide

/-- `parseDigits` with an arbitrary accumulator. -/
theorem parseDigits_go (acc : Nat) (l : List Char) :
    l.foldl (fun a c => 10 * a + (c.toNat - 48)) acc
      = acc * 10 ^ l.length + parseDigits l := by
  induction l generalizing acc with
  | nil => simp [parseDigits]
  | cons c cs ih =>
    simp only [List.foldl_cons, List.length_cons]
    rw [ih, show parseDigits (c :: cs)
        = List.foldl (fun a c => 10 * a + (c.toNat - 48))
            (10 * 0 + (c.toNat - 48)) cs from rfl, ih]
    rw [pow_succ]
    ring

/-- `parseDigits` distributes over concatenation. -/
theorem parseDigits_append (x y : List Char) :
    parseDigits (x ++ y)
      = parseDigits x * 10 ^ y.length + parseDigits y := by
  unfold parseDigits
  rw [List.foldl_append]
  exact parseDigits_go _ y

/-- A run of `'0'` characters parses to zero. -/
theorem parseDigits_replicate_zero (k : Nat) :
    parseDigits (List.replicate k '0') = 0 := by
  induction k with
  | zero => rfl
  | succ n ih =>
    rw [List.replicate_succ, show parseDigits ('0' :: List.replicate n '0')
        = List.foldl (fun a c => 10 * a + (c.toNat - 48))
            (10 * 0 + ('0'.toNat - 48)) (List.replicate n '0') from rfl]
    simpa [parseDigits] using ih

/-- `natDigitsAux` with enough fuel renders exactly its input. -/
theorem natDigitsAux_parse (fuel : Nat) :
    ∀ n, n < fuel → parseDigits (natDigitsAux fuel n) = n := by
  induction fuel with
  | zero => omega
  | succ f ih =>
    intro n hn
    unfold natDigitsAux
    split_ifs with h10
    · simpa [parseDigits] using digitChar_val n h10
    · rw [parseDigits_append, ih (n / 10) (by omega)]
      have hone : parseDigits [Nat.digitChar (n % 10)] = n % 10 := by
        simpa [parseDigits] using digitChar_val (n % 10) (by omega)
      rw [hone]
      simp only [List.length_singleton, pow_one]
      omega

/-- The dot never occurs among rendered digits. -/
theorem dot_not_mem_natDigitsAux (fuel : Nat) :
    ∀ n, '.' ∉ natDigitsAux fuel n := by
  induction fuel with
  | zero => intro n; simp [natDigitsAux]
  | succ f ih =>
    intro n
    unfold natDigitsAux
    split_ifs with h10
    · simpa using (digitChar_ne_dot n h10).symm
    · simp only [List.mem_append, List.mem_singleton]
      push_neg
      exact ⟨ih (n / 10),
        (digitChar_ne_dot (n % 10) (by omega)).symm⟩

/-- With enough fuel, numbers below `10 ^ d` render in at most `d` digits
(for `d ≥ 1`). -/
theorem natDigitsAux_length (fuel : Nat) :
    ∀ n d, n < fuel → 1 ≤ d → n < 10 ^ d →
      (natDigitsAux fuel n).length ≤ d := by
  induction fuel with
  | zero => omega
  | succ f ih =>
    intro n d hn hd hpow
    unfold natDigitsAux
    split_ifs with h10
    · simpa using hd
    · rw [List.length_append, List.length_singleton]
      have hd2 : 2 ≤ d := by
        by_contra hlt
        have : d = 1 := by omega
        subst this
        simp at hpow
        omega
      have hdiv : n / 10 < 10 ^ (d - 1) := by
        have h1 : (10 : Nat) ^ d = 10 * 10 ^ (d - 1) := by
          conv_lhs => rw [show d = (d - 1) + 1 by omega]
          rw [pow_succ]
          ring
        rw [Nat.div_lt_iff_lt_mul (by omega)]
        omega
      have := ih (n / 10) (d - 1) (by omega) (by omega) hdiv
      omega

/-- Decimal rendering round-trips through decimal parsing. -/
theorem parseDigits_natDigits (n : Nat) : parseDigits (natDigits n) = n :=
  natDigitsAux_parse (n + 1) n (by omega)

/-- The dot never occurs in a rendered number. -/
theorem dot_not_mem_natDigits (n : Nat) : '.' ∉ natDigits n :=
  dot_not_mem_natDigitsAux (n + 1) n

/-- A number below `10 ^ d` renders in at most `d` digits (`d ≥ 1`). -/
theorem natDigits_length_le (n d : Nat) (hd : 1 ≤ d) (h : n < 10 ^ d) :
    (natDigits n).length ≤ d :=
  natDigitsAux_length (n + 1) n d (by omega) hd h

/-- A dot-free string is not split. -/
theorem splitOnDot_no_dot (l : List Char) (h : '.' ∉ l) :
    splitOnDot l = [l] := by
  induction l with
  | nil => rfl
  | cons c cs ih =>
    have hc : ¬ c = '.' := fun hc => h (by simp [hc])
    have hcs : '.' ∉ cs := fun hm => h (List.mem_cons_of_mem _ hm)
    simp [splitOnDot, hc, ih hcs]

/-- Splitting cuts at the first dot when the prefix is dot-free. -/
theorem splitOnDot_append (x y : List Char) (hx : '.' ∉ x) :
    splitOnDot (x ++ '.' :: y) = x :: splitOnDot y := by
  induction x with
  | nil => simp [splitOnDot]
  | cons c cs ih =>
    have hc : ¬ c = '.' := fun hc => hx (by simp [hc])
    have hcs : '.' ∉ cs := fun hm => hx (List.mem_cons_of_mem _ hm)
    simp [splitOnDot, hc, ih hcs]

/-- Every string is its trailing-zero-stripped core followed by the
stripped zeros. -/
theorem dropTrailingZeros_spec (l : List Char) :
    dropTrailingZeros l
      ++ List.replicate (l.length - (dropTrailingZeros l).length) '0'
      = l := by
  unfold dropTrailingZeros
  have htw : List.takeWhile (fun c => c = '0') l.reverse
      = List.replicate
          (List.takeWhile (fun c => c = '0') l.reverse).length '0' := by
    apply List.eq_replicate_of_mem
    intro b hb
    have := List.mem_takeWhile_imp hb
    simpa using this
  have hsplit := List.takeWhile_append_dropWhile (fun c => c = '0') l.reverse
  have hlen : (List.takeWhile (fun c => c = '0') l.reverse).length
        + (List.dropWhile (fun c => c = '0') l.reverse).length
      = l.length := by
    rw [← List.length_append, hsplit, List.length_reverse]
  conv_rhs => rw [← List.reverse_reverse l, ← hsplit]
  rw [List.reverse_append, htw, List.reverse_replicate]
  congr 2
  rw [List.length_reverse]
  omega

/-- The stripped core is never longer than the string. -/
theorem dropTrailingZeros_length_le (l : List Char) :
    (dropTrailingZeros l).length ≤ l.length := by
  unfold dropTrailingZeros
  rw [List.length_reverse]
  calc (List.dropWhile (fun c => c = '0') l.reverse).length
      ≤ l.reverse.length := (List.dropWhile_sublist _).length_le
    _ = l.length := List.length_reverse l

/-- Stripping preserves dot-freeness. -/
theorem dot_not_mem_dropTrailingZeros (l : List Char) (h : '.' ∉ l) :
    '.' ∉ dropTrailingZeros l := by
  intro hm
  apply h
  unfold dropTrailingZeros at hm
  rw [List.mem_reverse] at hm
  have := (List.dropWhile_sublist (l := l.reverse)
    (fun c => c = '0')).subset hm
  rwa [List.mem_reverse] at this

/-- Right-padding the stripped core back to the original width restores
the original string. -/
theorem take_padEnd_dropTrailingZeros (fs : List Char) (d : Nat)
    (hlen : fs.length = d) :
    (padEndZeros (dropTrailingZeros fs) d).take d = fs := by
  unfold padEndZeros
  have hle : (dropTrailingZeros fs).length ≤ d := by
    rw [← hlen]
    exact dropTrailingZeros_length_le fs
  have hspec := dropTrailingZeros_spec fs
  rw [hlen] at hspec
  have hfull : ((dropTrailingZeros fs)
      ++ List.replicate (d - (dropTrailingZeros fs).length) '0').length
      = d := by
    rw [List.length_append, List.length_replicate]
    omega
  rw [List.take_of_length_le (by omega), hspec]

/-- C10: formatting a non-negative token amount with `d ≥ 1` decimals and
parsing the result back is the identity:
`parseTokenAmount (formatTokenAmount amount d) d = amount`. -/
theorem c10_format_parse_roundtrip (amount d : Nat) (hd : 1 ≤ d) :
    parseTokenAmount (formatTokenAmount amount d) d = amount := by
  unfold formatTokenAmount parseTokenAmount
  simp only []
  have hdiv : (0 : Nat) < 10 ^ d := by positivity
  have hfp_lt : amount % 10 ^ d < 10 ^ d := Nat.mod_lt _ hdiv
  have hnd_len : (natDigits (amount % 10 ^ d)).length ≤ d :=
    natDigits_length_le _ d hd hfp_lt
  have hfs_len :
      (padStartZeros (natDigits (amount % 10 ^ d)) d).length = d := by
    unfold padStartZeros
    rw [List.length_append, List.length_replicate]
    omega
  have hfs_nodot : '.' ∉ padStartZeros (natDigits (amount % 10 ^ d)) d := by
    unfold padStartZeros
    rw [List.mem_append]
    push_neg
    constructor
    · intro hm
      have := List.eq_of_mem_replicate hm
      simp at this
    · exact dot_not_mem_natDigits _
  have hip_nodot : '.' ∉ natDigits (amount / 10 ^ d) :=
    dot_not_mem_natDigits _
  have hfs_parse :
      parseDigits (padStartZeros (natDigits (amount % 10 ^ d)) d)
        = amount % 10 ^ d := by
    unfold padStartZeros
    rw [parseDigits_append, parseDigits_replicate_zero,
      parseDigits_natDigits]
    simp
  set fs := padStartZeros (natDigits (amount % 10 ^ d)) d with hfs_def
  by_cases htr : dropTrailingZeros fs ≠ []
  · rw [if_pos htr]
    rw [splitOnDot_append _ _ hip_nodot]
    rw [splitOnDot_no_dot (dropTrailingZeros fs)
      (dot_not_mem_dropTrailingZeros fs hfs_nodot)]
    simp only [List.headD_cons, List.drop_succ_cons, List.drop_zero]
    rw [take_padEnd_dropTrailingZeros fs d hfs_len]
    rw [parseDigits_append, parseDigits_natDigits, hfs_parse, hfs_len,
      Nat.mul_comm (amount / 10 ^ d) (10 ^ d)]
    exact Nat.div_add_mod amount (10 ^ d)
  · rw [if_neg htr]
    push_neg at htr
    have hfs_zero : fs = List.replicate fs.length '0' := by
      have := dropTrailingZeros_spec fs
      rw [htr] at this
      simpa using this.symm
    have hfp_zero : amount % 10 ^ d = 0 := by
      rw [← hfs_parse, hfs_zero, parseDigits_replicate_zero]
    rw [splitOnDot_no_dot _ hip_nodot]
    simp only [List.headD_cons, List.drop_succ_cons, List.drop_zero,
      List.headD_nil]
    unfold padEndZeros
    simp only [List.nil_append, List.length_nil, Nat.sub_zero]
    rw [List.take_of_length_le (by rw [List.length_replicate])]
    rw [parseDigits_append, parseDigits_replicate_zero,
      parseDigits_natDigits, List.length_replicate,
      Nat.mul_comm (amount / 10 ^ d) (10 ^ d)]
    have hdm := Nat.div_add_mod amount (10 ^ d)
    omega

/-- C10 witness: `formatTokenAmount 10500 3 = "10.5"` parses back to
`10500`. -/
theorem c10_format_parse_roundtrip_witness :
    parseTokenAmount (formatTokenAmount 10500 3) 3 = 10500 :=
  c10_format_parse_roundtrip 10500 3 (by decide)

end TokenVesting
